import Mathlib

/-!
# Verification of the Cantilan ERS core (src/emg.py)

Shallow embedding of the domain store, triage engine and dashboard actions of
the emergency-response application, together with proofs of the specified
properties.

Modelling conventions:
* machine floats for latitude/longitude/distances become rationals (`ℚ`);
* the external geodesic distance (`get_distance`, which returns `None` on
  failure) becomes a parameter `dist : Coord → Coord → Option ℚ`;
* Python dict records become structures whose field order follows the
  insertion order of the corresponding dict keys in the source;
* Python's stable `list.sort` becomes `List.mergeSort`, which is stable and
  sorts by the same total preorder, hence produces the same output;
* `st.session_state` becomes an explicit `Store` value threaded through the
  operations.
-/

namespace CantilanERS

/-- A latitude/longitude pair, as carried by `geocode_address` results. -/
abbrev Coord := ℚ × ℚ

/-- Constant `CANTILAN_CENTER = [9.3355, 125.9769]`, the configured town-center
fallback coordinate. -/
def CANTILAN_CENTER : Coord := (93355/10000, 1259769/10000)

/-- An SOS alert record, fields in the insertion order of the dict built by
`log_sos`. -/
structure Sos where
  id : Nat
  user_id : Nat
  user_name : String
  timestamp : String
  lat : ℚ
  lon : ℚ
  note : String
  handled : Bool
  category : Option String
  address : String
deriving DecidableEq, Repr

/-! ## Triage engine: ranking by distance (`rescuer_dashboard`) -/

/-- The comparison induced by the sort key
`lambda x: x[1] if x[1] is not None else float('inf')`: a missing distance
compares as plus infinity. -/
def distLE : Option ℚ → Option ℚ → Bool
  | _, none => true
  | none, some _ => false
  | some a, some b => decide (a ≤ b)

theorem distLE_refl (a : Option ℚ) : distLE a a = true := by
  cases a <;> simp [distLE]

theorem distLE_trans (a b c : Option ℚ) (h1 : distLE a b = true) (h2 : distLE b c = true) :
    distLE a c = true := by
  cases a <;> cases b <;> cases c <;> simp_all [distLE]
  exact le_trans h1 h2

theorem distLE_total (a b : Option ℚ) : (distLE a b || distLE b a) = true := by
  cases a <;> cases b <;> simp [distLE, le_total]

/-- Lines 1125–1132 of `rescuer_dashboard`: pair every alert with its distance
from the responder (none discarded), then stably sort by distance with
`None` treated as plus infinity. -/
def rankAlertsByDistance (dist : Coord → Coord → Option ℚ) (obs : Coord)
    (alerts : List Sos) : List (Sos × Option ℚ) :=
  (alerts.map (fun a => (a, dist obs (a.lat, a.lon)))).mergeSort
    (fun p q => distLE p.2 q.2)

/-- Lines 1135–1138 of `rescuer_dashboard`: stable partition of the ranked
sequence into (unhandled, handled). -/
def partitionByHandled (ranked : List (Sos × Option ℚ)) :
    List (Sos × Option ℚ) × List (Sos × Option ℚ) :=
  (ranked.filter (fun p => !p.1.handled), ranked.filter (fun p => p.1.handled))

theorem rank_trans (p q r : Sos × Option ℚ)
    (h1 : distLE p.2 q.2 = true) (h2 : distLE q.2 r.2 = true) : distLE p.2 r.2 = true :=
  distLE_trans _ _ _ h1 h2

theorem rank_total (p q : Sos × Option ℚ) :
    (distLE p.2 q.2 || distLE q.2 p.2) = true :=
  distLE_total _ _

/-- C1: the ranking computes a distance (or none) for each alert without
discarding any (the output is a permutation of the alert/distance pairs),
the output is sorted non-decreasing by distance, every alert with unknown
(`none`) distance appears after every alert with a known distance, and
pairs with equal distance (both unknown included) keep their original
relative order (stability). -/
theorem rankAlertsByDistance_spec (dist : Coord → Coord → Option ℚ) (obs : Coord)
    (alerts : List Sos) :
    List.Perm (rankAlertsByDistance dist obs alerts)
      (alerts.map (fun a => (a, dist obs (a.lat, a.lon)))) ∧
    (rankAlertsByDistance dist obs alerts).Pairwise (fun p q => distLE p.2 q.2 = true) ∧
    (∀ p q : Sos × Option ℚ, List.Sublist [p, q] (rankAlertsByDistance dist obs alerts) →
      p.2 = none → q.2 = none) ∧
    (∀ p q : Sos × Option ℚ, List.Sublist [p, q] (alerts.map (fun a => (a, dist obs (a.lat, a.lon)))) →
      p.2 = q.2 → List.Sublist [p, q] (rankAlertsByDistance dist obs alerts)) := by
  refine ⟨List.mergeSort_perm _ _, List.sorted_mergeSort rank_trans rank_total _, ?_, ?_⟩
  · intro p q hsub hp
    have hpw := (List.sorted_mergeSort rank_trans rank_total
      (alerts.map (fun a => (a, dist obs (a.lat, a.lon)))) : _)
    have hpq : ([p, q] : List (Sos × Option ℚ)).Pairwise
        (fun p q => distLE p.2 q.2 = true) := List.Pairwise.sublist hsub hpw
    have hpair := List.pairwise_pair.mp hpq
    cases hq : q.2 with
    | none => rfl
    | some d => rw [hp, hq] at hpair; simp [distLE] at hpair
  · intro p q hsub heq
    exact List.pair_sublist_mergeSort rank_trans rank_total
      (by rw [heq]; exact distLE_refl q.2) hsub

/-- Concrete witness data for the ranking theorem: two alerts at the same
coordinate (hence equal distance) and an observer at the town center. -/
def sosA : Sos :=
  { id := 1, user_id := 1, user_name := "ana", timestamp := "t1", lat := 1, lon := 1,
    note := "", handled := false, category := none, address := "a1" }

def sosB : Sos :=
  { id := 2, user_id := 2, user_name := "ben", timestamp := "t2", lat := 1, lon := 1,
    note := "", handled := true, category := some "Fire", address := "a2" }

def distW : Coord → Coord → Option ℚ := fun _ c => if c = (1, 1) then some 1 else none

theorem rankAlertsByDistance_spec_witness :
    List.Sublist
      [(sosA, distW CANTILAN_CENTER (sosA.lat, sosA.lon)),
       (sosB, distW CANTILAN_CENTER (sosB.lat, sosB.lon))]
      (rankAlertsByDistance distW CANTILAN_CENTER [sosA, sosB]) :=
  (rankAlertsByDistance_spec distW CANTILAN_CENTER [sosA, sosB]).2.2.2
    (sosA, distW CANTILAN_CENTER (sosA.lat, sosA.lon))
    (sosB, distW CANTILAN_CENTER (sosB.lat, sosB.lon))
    (List.Sublist.refl _) (by simp [distW, sosA, sosB])

/-- C2: partitioning the ranked sequence by handled state drops and
duplicates nothing (the two halves together are a permutation of the
input), each half preserves the ranked relative order (it is a sublist of
the input), and membership in each half is exactly membership in the input
with the corresponding handled state. -/
theorem partitionByHandled_spec (ranked : List (Sos × Option ℚ)) :
    List.Perm ((partitionByHandled ranked).1 ++ (partitionByHandled ranked).2) ranked ∧
    List.Sublist (partitionByHandled ranked).1 ranked ∧
    List.Sublist (partitionByHandled ranked).2 ranked ∧
    (∀ p, p ∈ (partitionByHandled ranked).1 ↔ p ∈ ranked ∧ p.1.handled = false) ∧
    (∀ p, p ∈ (partitionByHandled ranked).2 ↔ p ∈ ranked ∧ p.1.handled = true) := by
  refine ⟨?_, List.filter_sublist _, List.filter_sublist _, ?_, ?_⟩
  · have h := List.filter_append_perm (fun p : Sos × Option ℚ => !p.1.handled) ranked
    simpa [partitionByHandled] using h
  · intro p; simp [partitionByHandled]
  · intro p; simp [partitionByHandled]

/-! ## Domain store: users, reports, session state -/

/-- A user record. Field order follows the insertion order of the dict keys:
the nineteen keys written by every signup form (`page_signup_user`,
`page_signup_rescuer`, `page_signup_government`, `page_signup_admin`, all in
the same order), then `id` and `registered_on` set by `add_user`, then
`latitude` and `longitude` set by `add_user` after geocoding. -/
structure User where
  role : String
  username : String
  password : String
  name : String
  age : Option Nat
  gender : Option String
  mobile : String
  position : Option String
  work : String
  family_members : Option Nat
  property_address : String
  specific_address : Option String
  property_size : Option String
  year_residency : Option Nat
  specialization : Option String
  equipment : Option String
  department : Option String
  clearance_level : Option String
  admin_privileges : Option String
  id : Nat
  registered_on : String
  latitude : ℚ
  longitude : ℚ
deriving DecidableEq, Repr

/-- A signup form record: the nineteen fields a signup form writes before
`add_user` assigns `id`, `registered_on` and the coordinates. -/
structure UserInput where
  role : String
  username : String
  password : String
  name : String
  age : Option Nat
  gender : Option String
  mobile : String
  position : Option String
  work : String
  family_members : Option Nat
  property_address : String
  specific_address : Option String
  property_size : Option String
  year_residency : Option Nat
  specialization : Option String
  equipment : Option String
  department : Option String
  clearance_level : Option String
  admin_privileges : Option String
deriving DecidableEq, Repr

/-- An official report record, fields in the insertion order of the dict
built by `add_report`. -/
structure Report where
  id : Nat
  reporter_id : Nat
  reporter_name : String
  timestamp : String
  category : String
  description : String
  lat : ℚ
  lon : ℚ
  address : String
deriving DecidableEq, Repr

/-- The in-process session store: `st.session_state.users`,
`st.session_state.sos_logs`, `st.session_state.reports`. -/
structure Store where
  users : List User
  sos_logs : List Sos
  reports : List Report
deriving DecidableEq, Repr

/-- Function `initialize_session_state`: all collections start empty. -/
def Store.empty : Store := ⟨[], [], []⟩

/-- Function `add_user`: assign `id := len(users) + 1`, stamp `registered_on`, then
geocode the property address — on a missing address or a failed geocode
(`geo = none`) fall back to `CANTILAN_CENTER` — and append the user.
`geo` is the result of the external `geocode_address` call and `now` the
current timestamp string. -/
def add_user (geo : Option Coord) (now : String) (inp : UserInput) (s : Store) : Store :=
  let latlon : Coord :=
    if inp.property_address = "" then CANTILAN_CENTER
    else match geo with
      | some c => c
      | none => CANTILAN_CENTER
  let u : User :=
    { role := inp.role, username := inp.username, password := inp.password,
      name := inp.name, age := inp.age, gender := inp.gender, mobile := inp.mobile,
      position := inp.position, work := inp.work, family_members := inp.family_members,
      property_address := inp.property_address, specific_address := inp.specific_address,
      property_size := inp.property_size, year_residency := inp.year_residency,
      specialization := inp.specialization, equipment := inp.equipment,
      department := inp.department, clearance_level := inp.clearance_level,
      admin_privileges := inp.admin_privileges,
      id := s.users.length + 1, registered_on := now,
      latitude := latlon.1, longitude := latlon.2 }
  { s with users := s.users ++ [u] }

/-- Function `validate_login`: linear scan returning the first user whose username
and password both match exactly, `none` otherwise. -/
def validate_login (username password : String) (users : List User) : Option User :=
  users.find? (fun u => u.username == username && u.password == password)

/-- Function `delete_user_by_id`: keep the users whose id differs from `user_id` and
the SOS logs whose `user_id` field differs from it; reports untouched. -/
def delete_user_by_id (user_id : Nat) (s : Store) : Store :=
  { s with
    users := s.users.filter (fun u => u.id != user_id),
    sos_logs := s.sos_logs.filter (fun l => l.user_id != user_id) }

/-- Function `log_sos`: append a new alert with `id := len(sos_logs) + 1` and
`handled := false`. `now` is the timestamp string and `addr` the result of
the external `get_address_from_coords` call (a placeholder string when the
reverse geocode fails — `log_sos` appends the record either way). -/
def log_sos (now addr : String) (user_id : Nat) (user_name : String)
    (lat lon : ℚ) (note : String) (category : Option String) (s : Store) : Store :=
  let r : Sos :=
    { id := s.sos_logs.length + 1, user_id := user_id, user_name := user_name,
      timestamp := now, lat := lat, lon := lon, note := note, handled := false,
      category := category, address := addr }
  { s with sos_logs := s.sos_logs ++ [r] }

/-- The loop body of `mark_sos_handled`: walk the list and set
`handled := true` on the first alert whose id matches, then `break`. -/
def markFirstHandled (sos_id : Nat) : List Sos → List Sos
  | [] => []
  | a :: rest =>
    if a.id = sos_id then { a with handled := true } :: rest
    else a :: markFirstHandled sos_id rest

/-- Function `mark_sos_handled`: mark the first alert with the given id handled. -/
def mark_sos_handled (sos_id : Nat) (s : Store) : Store :=
  { s with sos_logs := markFirstHandled sos_id s.sos_logs }

/-- Function `add_report`: append a new report with `id := len(reports) + 1`. -/
def add_report (now addr : String) (reporter_id : Nat)
    (reporter_name category description : String) (lat lon : ℚ) (s : Store) : Store :=
  { s with reports := s.reports ++
      [{ id := s.reports.length + 1, reporter_id := reporter_id,
         reporter_name := reporter_name, timestamp := now, category := category,
         description := description, lat := lat, lon := lon, address := addr }] }

/-- The citizen test record from the spec example: user `bob` with password
`secret`. -/
def bobUser : User :=
  { role := "user", username := "bob", password := "secret", name := "Bob",
    age := some 30, gender := some "Male", mobile := "0900", position := none,
    work := "", family_members := some 1, property_address := "Poblacion, Cantilan",
    specific_address := some "", property_size := some "", year_residency := some 2020,
    specialization := none, equipment := none, department := none,
    clearance_level := none, admin_privileges := none,
    id := 1, registered_on := "2024-01-01 00:00:00",
    latitude := 9, longitude := 126 }

/-- C7: `validate_login` succeeds exactly when the store holds a user whose
username and password both match by exact string equality, any returned
record is such a user, and on the store containing bob/secret the two
spec examples hold: a wrong password yields `none` and the right one yields
the bob record. -/
theorem validate_login_spec (username password : String) (users : List User) :
    ((validate_login username password users).isSome ↔
      ∃ u ∈ users, u.username = username ∧ u.password = password) ∧
    (∀ u, validate_login username password users = some u →
      u ∈ users ∧ u.username = username ∧ u.password = password) ∧
    validate_login "bob" "wrongpass" [bobUser] = none ∧
    validate_login "bob" "secret" [bobUser] = some bobUser := by
  refine ⟨?_, ?_, by decide, by decide⟩
  · rw [validate_login, List.find?_isSome]
    constructor
    · rintro ⟨u, hu, hp⟩
      simp only [Bool.and_eq_true, beq_iff_eq] at hp
      exact ⟨u, hu, hp.1, hp.2⟩
    · rintro ⟨u, hu, h1, h2⟩
      exact ⟨u, hu, by simp [h1, h2]⟩
  · intro u hu
    have hmem := List.mem_of_find?_eq_some hu
    have hp := List.find?_some hu
    simp only [Bool.and_eq_true, beq_iff_eq] at hp
    exact ⟨hmem, hp.1, hp.2⟩

/-- Witness for C7 at a concrete input: the returned record for
bob/secret is a store member matching both credential strings. -/
theorem validate_login_spec_witness :
    bobUser ∈ [bobUser] ∧ bobUser.username = "bob" ∧ bobUser.password = "secret" :=
  (validate_login_spec "bob" "secret" [bobUser]).2.1 bobUser
    (validate_login_spec "bob" "secret" [bobUser]).2.2.2

/-! ## Operations and reachable states -/

/-- A store mutation, one constructor per mutating operation of the
source. -/
inductive Op where
  | addUserOp (geo : Option Coord) (now : String) (inp : UserInput)
  | logSosOp (now addr : String) (uid : Nat) (uname : String) (lat lon : ℚ)
      (note : String) (cat : Option String)
  | deleteUserOp (uid : Nat)
  | markHandledOp (sid : Nat)
  | addReportOp (now addr : String) (rid : Nat) (rname cat desc : String) (lat lon : ℚ)

/-- Apply an operation to the store. -/
def applyOp : Op → Store → Store
  | .addUserOp geo now inp, s => add_user geo now inp s
  | .logSosOp now addr uid uname lat lon note cat, s =>
      log_sos now addr uid uname lat lon note cat s
  | .deleteUserOp uid, s => delete_user_by_id uid s
  | .markHandledOp sid, s => mark_sos_handled sid s
  | .addReportOp now addr rid rname cat desc lat lon, s =>
      add_report now addr rid rname cat desc lat lon s

/-- Contextual guard imposed by the UI: `log_sos` is only ever invoked from
the citizen dashboard with `user_id = current_user.id`, and the logged-in
citizen is an element of the user collection (`validate_login` returned it
and it cannot have been deleted within the same session). All other
operations run unguarded. -/
def opAllowed : Op → Store → Prop
  | .logSosOp _ _ uid _ _ _ _ _, s => ∃ u ∈ s.users, u.id = uid
  | _, _ => True

/-- States reachable from the empty session store through any interleaving
of the source's mutating operations. -/
inductive Reach : Store → Prop where
  | base : Reach Store.empty
  | step (op : Op) {s : Store} : Reach s → opAllowed op s → Reach (applyOp op s)

/-- Every SOS alert in the store refers to the id of some present user. -/
def sosUsersConsistent (s : Store) : Prop :=
  ∀ a ∈ s.sos_logs, ∃ u ∈ s.users, u.id = a.user_id

theorem markFirstHandled_map_user_id (sos_id : Nat) (l : List Sos) :
    (markFirstHandled sos_id l).map Sos.user_id = l.map Sos.user_id := by
  induction l with
  | nil => rfl
  | cons a rest ih =>
    by_cases h : a.id = sos_id <;> simp [markFirstHandled, h, ih]

theorem reach_sosUsersConsistent {s : Store} (h : Reach s) : sosUsersConsistent s := by
  induction h with
  | base => intro a ha; cases ha
  | step op hr hall ih =>
    rename_i s
    cases op with
    | addUserOp geo now inp =>
      intro a ha
      obtain ⟨u, hu, hid⟩ := ih a ha
      exact ⟨u, List.mem_append_left _ hu, hid⟩
    | logSosOp now addr uid uname lat lon note cat =>
      intro a ha
      rcases List.mem_append.mp ha with hold | hnew
      · obtain ⟨u, hu, hid⟩ := ih a hold
        exact ⟨u, hu, hid⟩
      · obtain ⟨u, hu, hid⟩ := hall
        have : a.user_id = uid := by
          simp only [List.mem_singleton] at hnew
          rw [hnew]
        exact ⟨u, hu, by rw [this, hid]⟩
    | deleteUserOp uid =>
      intro a ha
      have hsub : a ∈ s.sos_logs := List.mem_of_mem_filter ha
      have hkeep : a.user_id ≠ uid := by
        have := List.of_mem_filter ha
        simpa using this
      obtain ⟨u, hu, hid⟩ := ih a hsub
      refine ⟨u, List.mem_filter.mpr ⟨hu, ?_⟩, hid⟩
      simp [hid, hkeep]
    | markHandledOp sid =>
      intro a ha
      have : a.user_id ∈ (markFirstHandled sid s.sos_logs).map Sos.user_id :=
        List.mem_map_of_mem _ ha
      rw [markFirstHandled_map_user_id] at this
      obtain ⟨a0, ha0, heq⟩ := List.mem_map.mp this
      obtain ⟨u, hu, hid⟩ := ih a0 ha0
      exact ⟨u, hu, by rw [hid, heq]⟩
    | addReportOp now addr rid rname cat desc lat lon =>
      intro a ha
      exact ih a ha

/-! ## C6: deleting a user -/

/-- C6: deleting a user id removes exactly the users with that id and the
alerts referencing it — membership in the result is membership in the input
minus the matching records, relative order is preserved, and reports are
untouched — deletion is idempotent, and on any reachable store deleting an
id no user carries is a no-op. -/
theorem delete_user_by_id_spec (uid : Nat) (s : Store) (h : Reach s) :
    (∀ u, u ∈ (delete_user_by_id uid s).users ↔ u ∈ s.users ∧ u.id ≠ uid) ∧
    (∀ a, a ∈ (delete_user_by_id uid s).sos_logs ↔ a ∈ s.sos_logs ∧ a.user_id ≠ uid) ∧
    List.Sublist (delete_user_by_id uid s).users s.users ∧
    List.Sublist (delete_user_by_id uid s).sos_logs s.sos_logs ∧
    (delete_user_by_id uid s).reports = s.reports ∧
    delete_user_by_id uid (delete_user_by_id uid s) = delete_user_by_id uid s ∧
    ((∀ u ∈ s.users, u.id ≠ uid) → delete_user_by_id uid s = s) := by
  refine ⟨?_, ?_, List.filter_sublist _, List.filter_sublist _, rfl, ?_, ?_⟩
  · intro u; simp [delete_user_by_id]
  · intro a; simp [delete_user_by_id]
  · simp [delete_user_by_id, List.filter_filter]
  · intro habsent
    have hu : s.users.filter (fun u => u.id != uid) = s.users :=
      List.filter_eq_self.mpr (fun u hu => by simpa using habsent u hu)
    have hs : s.sos_logs.filter (fun l => l.user_id != uid) = s.sos_logs := by
      refine List.filter_eq_self.mpr (fun a ha => ?_)
      obtain ⟨u, hmem, hid⟩ := reach_sosUsersConsistent h a ha
      have := habsent u hmem
      simp only [bne_iff_ne, ne_eq]
      rw [← hid]
      exact this
    simp [delete_user_by_id, hu, hs]

/-- A concrete citizen signup record used in witnesses and
counterexamples. -/
def inpCitizen (uname : String) : UserInput :=
  { role := "user", username := uname, password := "pw", name := uname,
    age := some 30, gender := some "Male", mobile := "0900", position := none,
    work := "", family_members := some 1, property_address := "Poblacion, Cantilan",
    specific_address := some "", property_size := some "", year_residency := some 2020,
    specialization := none, equipment := none, department := none,
    clearance_level := none, admin_privileges := none }

/-- A concrete administrator signup record. -/
def inpAdmin : UserInput :=
  { role := "admin", username := "root", password := "pw", name := "Root",
    age := none, gender := none, mobile := "0901",
    position := some "System Administrator", work := "MIS",
    family_members := none, property_address := "", specific_address := none,
    property_size := none, year_residency := none, specialization := none,
    equipment := none, department := some "ICT", clearance_level := some "Full Access",
    admin_privileges := some "Full System Admin" }

/-- A reachable one-user store for witnesses: a single citizen signup whose
geocode succeeded at (9, 126). -/
def storeOne : Store := add_user (some (9, 126)) "t1" (inpCitizen "ana") Store.empty

theorem storeOne_reach : Reach storeOne :=
  Reach.step (Op.addUserOp (some (9, 126)) "t1" (inpCitizen "ana")) Reach.base trivial

/-- Witness for C6 at a concrete reachable store: deleting the absent id 2
from the one-user store leaves it unchanged. -/
theorem delete_user_by_id_spec_witness :
    delete_user_by_id 2 storeOne = storeOne :=
  (delete_user_by_id_spec 2 storeOne storeOne_reach).2.2.2.2.2.2
    (by intro u hu; simp [storeOne, add_user, Store.empty, inpCitizen] at hu; simp [hu])

/-! ## C5: id uniqueness across create/delete interleavings -/

/-- A reachable store exhibiting id reuse: three signups, the admin deletes
user 1, then a fourth signup receives `id = len(users) + 1 = 3`, colliding
with the surviving user of id 3. -/
def storeCollision : Store :=
  add_user (some (9, 126)) "t5" (inpCitizen "dan")
    (delete_user_by_id 1
      (add_user (some (9, 126)) "t3" (inpCitizen "carl")
        (add_user (some (9, 126)) "t2" inpAdmin
          (add_user (some (9, 126)) "t1" (inpCitizen "ana") Store.empty))))

/-- C5 fails on the code: `storeCollision` is reachable, yet its user ids
are `[2, 3, 3]` — two distinct users share id 3, because `add_user` derives
the id from the current collection length, which shrinks on deletion. -/
theorem user_id_uniqueness_bug :
    Reach storeCollision ∧
    storeCollision.users.map User.id = [2, 3, 3] ∧
    ¬ (storeCollision.users.map User.id).Nodup := by
  refine ⟨?_, by decide, by decide⟩
  exact Reach.step (Op.addUserOp (some (9, 126)) "t5" (inpCitizen "dan"))
    (Reach.step (Op.deleteUserOp 1)
      (Reach.step (Op.addUserOp (some (9, 126)) "t3" (inpCitizen "carl"))
        (Reach.step (Op.addUserOp (some (9, 126)) "t2" inpAdmin)
          (Reach.step (Op.addUserOp (some (9, 126)) "t1" (inpCitizen "ana"))
            Reach.base trivial) trivial) trivial) trivial) trivial

/-! ## C9: the handled flag is one-way -/

theorem markFirstHandled_eq_map_of_nodup (sid : Nat) (l : List Sos)
    (h : (l.map Sos.id).Nodup) :
    markFirstHandled sid l =
      l.map (fun a => if a.id = sid then { a with handled := true } else a) := by
  induction l with
  | nil => rfl
  | cons a rest ih =>
    simp only [List.map_cons, List.nodup_cons] at h
    by_cases hid : a.id = sid
    · have hrest : ∀ b ∈ rest, b.id ≠ sid := by
        intro b hb hbs
        exact h.1 (by rw [hid, ← hbs]; exact List.mem_map_of_mem _ hb)
      have : rest.map (fun a => if a.id = sid then { a with handled := true } else a)
          = rest.map (fun a => a) :=
        List.map_congr_left (fun b hb => by simp [hrest b hb])
      simp [markFirstHandled, hid, this]
    · simp [markFirstHandled, hid, ih h.2]

theorem markFirstHandled_idem (sid : Nat) (l : List Sos) :
    markFirstHandled sid (markFirstHandled sid l) = markFirstHandled sid l := by
  induction l with
  | nil => rfl
  | cons a rest ih =>
    by_cases hid : a.id = sid <;> simp [markFirstHandled, hid, ih]

theorem mem_markFirstHandled (sid : Nat) (l : List Sos) (a : Sos)
    (ha : a ∈ markFirstHandled sid l) :
    a ∈ l ∨ ∃ a0 ∈ l, a0.handled = false ∧ a = { a0 with handled := true } := by
  induction l with
  | nil => cases ha
  | cons b rest ih =>
    by_cases hid : b.id = sid
    · rw [markFirstHandled, if_pos hid] at ha
      rcases List.mem_cons.mp ha with hb | hrest
      · by_cases hbh : b.handled = false
        · exact Or.inr ⟨b, List.mem_cons_self b rest, hbh, hb⟩
        · have hb2 : ({ b with handled := true } : Sos) = b := by
            cases b; simp_all
          exact Or.inl (by rw [hb, hb2]; exact List.mem_cons_self b rest)
      · exact Or.inl (List.mem_cons_of_mem _ hrest)
    · rw [markFirstHandled, if_neg hid] at ha
      rcases List.mem_cons.mp ha with hb | hrest
      · exact Or.inl (hb ▸ List.mem_cons_self b rest)
      · rcases ih hrest with hl | ⟨a0, ha0, h0, heq⟩
        · exact Or.inl (List.mem_cons_of_mem _ hl)
        · exact Or.inr ⟨a0, List.mem_cons_of_mem _ ha0, h0, heq⟩

/-- C9: on a store whose alert ids are pairwise distinct,
`mark_sos_handled` sets `handled := true` on the alert with the matching id
and changes no other field and no other alert; it is idempotent on any
store; and no operation of the system ever sets a handled flag back to
false — every alert present after any operation is either a previous alert
left untouched, a previous *unhandled* alert with `handled` flipped to
`true`, or the freshly appended `log_sos` record, which starts with
`handled := false`. A reverted alert (an old handled alert with the flag
now false) would satisfy none of the three disjuncts. -/
theorem handled_one_way (sid : Nat) (s : Store)
    (huniq : (s.sos_logs.map Sos.id).Nodup) :
    (mark_sos_handled sid s).sos_logs =
      s.sos_logs.map (fun a => if a.id = sid then { a with handled := true } else a) ∧
    mark_sos_handled sid (mark_sos_handled sid s) = mark_sos_handled sid s ∧
    (∀ op : Op, ∀ a ∈ (applyOp op s).sos_logs,
      a ∈ s.sos_logs ∨
      (∃ a0 ∈ s.sos_logs, a0.handled = false ∧ a = { a0 with handled := true }) ∨
      (∃ now addr uid uname lat lon note cat,
        op = Op.logSosOp now addr uid uname lat lon note cat ∧
        a = { id := s.sos_logs.length + 1, user_id := uid, user_name := uname,
              timestamp := now, lat := lat, lon := lon, note := note,
              handled := false, category := cat, address := addr })) := by
  refine ⟨markFirstHandled_eq_map_of_nodup sid s.sos_logs huniq, ?_, ?_⟩
  · simp [mark_sos_handled, markFirstHandled_idem]
  · intro op a ha
    cases op with
    | addUserOp geo now inp => exact Or.inl ha
    | logSosOp now addr uid uname lat lon note cat =>
      rcases List.mem_append.mp ha with hold | hnew
      · exact Or.inl hold
      · simp only [List.mem_singleton] at hnew
        exact Or.inr (Or.inr ⟨now, addr, uid, uname, lat, lon, note, cat, rfl, hnew⟩)
    | deleteUserOp uid => exact Or.inl (List.mem_of_mem_filter ha)
    | markHandledOp sid2 =>
      rcases mem_markFirstHandled sid2 s.sos_logs a ha with hl | ⟨a0, ha0, h0, heq⟩
      · exact Or.inl hl
      · exact Or.inr (Or.inl ⟨a0, ha0, h0, heq⟩)
    | addReportOp now addr rid rname cat desc lat lon => exact Or.inl ha

/-- A reachable store holding one unhandled alert logged by the citizen of
`storeOne`. -/
def storeSos : Store :=
  log_sos "t2" "Poblacion, Cantilan" 1 "ana" 9 126 "help" (some "Fire") storeOne

/-- Witness for C9 at a concrete input: marking alert 1 handled in the
one-alert store rewrites exactly that alert. -/
theorem handled_one_way_witness :
    (mark_sos_handled 1 storeSos).sos_logs =
      storeSos.sos_logs.map
        (fun a => if a.id = 1 then { a with handled := true } else a) :=
  (handled_one_way 1 storeSos (by decide)).1

/-! ## C10: the administrator cannot delete their own account -/

/-- Lines 1449–1457 of `admin_dashboard`: the delete-user button handler.
When the entered target id is positive it is compared against the
logged-in administrator's own id; on a match an error is shown and nothing
is deleted, otherwise `delete_user_by_id` runs. -/
def admin_delete_user (admin_id target_id : Nat) (s : Store) : Store :=
  if target_id > 0 then
    if target_id = admin_id then s
    else delete_user_by_id target_id s
  else s

/-- C10: when the target id equals the logged-in administrator's own id the
store is left unchanged, and in every case the administrator's own record
survives the action. -/
theorem admin_delete_user_spec (admin_id target_id : Nat) (s : Store) (admin : User)
    (hmem : admin ∈ s.users) (hid : admin.id = admin_id) :
    (target_id = admin_id → admin_delete_user admin_id target_id s = s) ∧
    admin ∈ (admin_delete_user admin_id target_id s).users := by
  constructor
  · intro h
    simp [admin_delete_user, h]
  · by_cases h0 : target_id > 0
    · by_cases he : target_id = admin_id
      · simpa [admin_delete_user, h0, he] using hmem
      · rw [admin_delete_user, if_pos h0, if_neg he]
        refine List.mem_filter.mpr ⟨hmem, ?_⟩
        simp only [bne_iff_ne, ne_eq, hid]
        exact fun hc => he hc.symm
    · simpa [admin_delete_user, h0] using hmem

/-- The user record `add_user` produces for the first citizen signup of
`storeOne`. -/
def anaUser : User :=
  { role := "user", username := "ana", password := "pw", name := "ana",
    age := some 30, gender := some "Male", mobile := "0900", position := none,
    work := "", family_members := some 1, property_address := "Poblacion, Cantilan",
    specific_address := some "", property_size := some "", year_residency := some 2020,
    specialization := none, equipment := none, department := none,
    clearance_level := none, admin_privileges := none,
    id := 1, registered_on := "t1", latitude := 9, longitude := 126 }

/-- Witness for C10 at a concrete input: with ana (id 1) logged in, the
delete action targeting id 1 leaves the store unchanged. -/
theorem admin_delete_user_spec_witness :
    admin_delete_user 1 1 storeOne = storeOne :=
  (admin_delete_user_spec 1 1 storeOne anaUser (by decide) rfl).1 rfl

/-! ## C3: nearest-facility lookup (`user_dashboard`) -/

/-- A facility, i.e. a `HOTLINES` entry: name, contact, address. -/
structure Facility where
  name : String
  contact : String
  address : String
deriving DecidableEq, Repr

/-- Scan state of the nearest-facility loop: the running minimum distance,
with `none` denoting the initial `float('inf')`, and the best facility so
far. -/
structure NearestScan where
  min_distance : Option ℚ
  nearest : Option Facility
deriving DecidableEq, Repr

/-- Comparison `d < min_distance` against a possibly-infinite running
minimum. -/
def ltInf (d : ℚ) : Option ℚ → Bool
  | none => true
  | some m => decide (d < m)

/-- One iteration of the loop in `user_dashboard` lines 980–985: a facility
with no resolved coordinate is skipped; otherwise the distance is computed
and — mirroring the Python guard `if distance and distance < min_distance`,
in which a distance of `0.0` is falsy — the best pair is updated only when
the distance is defined, nonzero and below the running minimum. -/
def nearestStep (dist : Coord → Coord → Option ℚ) (obs : Coord)
    (st : NearestScan) (fc : Facility × Option Coord) : NearestScan :=
  match fc.2 with
  | none => st
  | some c =>
    match dist obs c with
    | none => st
    | some d =>
      if d ≠ 0 ∧ ltInf d st.min_distance = true then ⟨some d, some fc.1⟩ else st

/-- Lines 977–988 of `user_dashboard`: linear scan over the facilities,
then report the best facility only when one was found with a finite
minimum distance. -/
def nearestFacility (dist : Coord → Coord → Option ℚ) (obs : Coord)
    (facilities : List (Facility × Option Coord)) : Option Facility :=
  let st := facilities.foldl (nearestStep dist obs) ⟨none, none⟩
  match st.nearest, st.min_distance with
  | some f, some _ => some f
  | _, _ => none

/-- A concrete distance model agreeing with the geodesic on the one point
that matters: the distance from a coordinate to itself is zero. -/
def distRefl : Coord → Coord → Option ℚ := fun c1 c2 => if c1 = c2 then some 0 else some 1

def bfpStation : Facility :=
  { name := "BFP - Fire Station", contact := "0917-000-0000",
    address := "Brgy. Center, Cantilan, Surigao del Sur" }

/-- C3 fails on the code: with the observer co-located with the only
facility — whose coordinate is present and whose distance is zero — the
scan skips the facility, because `if distance and distance < min_distance`
treats the float `0.0` as falsy, and the lookup returns `none` although
not every facility coordinate is missing. -/
theorem nearestFacility_zero_distance_bug :
    nearestFacility distRefl (9, 126) [(bfpStation, some (9, 126))] = none ∧
    distRefl (9, 126) (9, 126) = some 0 ∧
    ¬ ∀ fc ∈ [(bfpStation, some ((9 : ℚ), (126 : ℚ)))], fc.2 = none :=
  ⟨by decide, by decide, by decide⟩

/-! ## C4: administrator CSV export (`admin_dashboard`) -/

/-- The column names of `pd.DataFrame(st.session_state.users)` in dict
insertion order: the nineteen signup keys, then `id`, `registered_on`,
`latitude`, `longitude` added by `add_user`. -/
def userFields : List String :=
  ["role", "username", "password", "name", "age", "gender", "mobile", "position",
   "work", "family_members", "property_address", "specific_address", "property_size",
   "year_residency", "specialization", "equipment", "department", "clearance_level",
   "admin_privileges", "id", "registered_on", "latitude", "longitude"]

def optCell : Option String → String
  | none => ""
  | some s => s

def natCell : Option Nat → String
  | none => ""
  | some n => toString n

def ratCell (q : ℚ) : String := toString q.num ++ "/" ++ toString q.den

/-- The CSV row rendered for one user: every field of the record in column
order, the password among them. -/
def userRow (u : User) : List String :=
  [u.role, u.username, u.password, u.name, natCell u.age, optCell u.gender, u.mobile,
   optCell u.position, u.work, natCell u.family_members, u.property_address,
   optCell u.specific_address, optCell u.property_size, natCell u.year_residency,
   optCell u.specialization, optCell u.equipment, optCell u.department,
   optCell u.clearance_level, optCell u.admin_privileges, toString u.id,
   u.registered_on, ratCell u.latitude, ratCell u.longitude]

/-- Lines 1460–1462 of `admin_dashboard`:
`df_users.to_csv(index=False)` over the DataFrame of the full user dicts —
a header row of all column names followed by one row per user. Unlike the
registry display a few lines below, no column is dropped. -/
def csvExport (users : List User) : List (List String) :=
  userFields :: users.map userRow

/-- C4 fails on the code as stated: the CSV export of a store holding the
user bob does have a `password` column, and bob's plaintext password value
appears in his row. -/
theorem csvExport_includes_password :
    (csvExport [bobUser]).head? = some userFields ∧
    "password" ∈ userFields ∧
    "secret" ∈ userRow bobUser :=
  ⟨rfl, by decide, by decide⟩

/-- C4 amended: the administrator CSV export is a delimited snapshot of the
user collection whose header row is the field names in insertion order and
whose data rows are the users in order, every row aligned with the header —
including the password field, which is NOT excluded: each user's password
sits under the `password` column. -/
theorem csvExport_spec (users : List User) :
    (csvExport users).head? = some userFields ∧
    (csvExport users).tail = users.map userRow ∧
    (∀ u, (userRow u).length = userFields.length) ∧
    (∀ u ∈ users, (userRow u).get? (userFields.indexOf "password") = some u.password) ∧
    (∀ u ∈ users, (userRow u).get? (userFields.indexOf "username") = some u.username) := by
  refine ⟨rfl, rfl, fun u => rfl, fun u _ => rfl, fun u _ => rfl⟩

/-- Witness for the amended C4 at a concrete input: bob's password value is
the cell under the `password` header. -/
theorem csvExport_spec_witness :
    (userRow bobUser).get? (userFields.indexOf "password") = some bobUser.password :=
  (csvExport_spec [bobUser]).2.2.2.1 bobUser (List.mem_singleton.mpr rfl)

/-! ## C8: geocoding failure handling at the call sites -/

/-- Lines 1299–1326 of `government_dashboard`: the official-report submit
handler. `sessionCoords` models `st.session_state.incident_lat/lon` (set by
an earlier successful geocode button press), `geo` the result of the
`geocode_address(incident_address)` retry inside the handler, and an empty
description or address fails validation before any geocoding. With no
stored coordinates and a failed geocode the handler shows an error and
returns without creating the report. -/
def submit_official_report (sessionCoords geo : Option Coord)
    (incident_address description now addr : String) (reporter_id : Nat)
    (reporter_name category : String) (s : Store) : Store :=
  if description = "" ∨ incident_address = "" then s
  else
    match sessionCoords with
    | some c => add_report now addr reporter_id reporter_name category description c.1 c.2 s
    | none =>
      match geo with
      | some c => add_report now addr reporter_id reporter_name category description c.1 c.2 s
      | none => s

/-- C8 fails on the code as stated: at the official-report call site a
geocoding failure aborts the operation — submitting a report on the
one-user store with an address that fails to geocode and no previously
stored coordinates leaves the store untouched and the report collection
empty, instead of recording the report with a fallback coordinate. -/
theorem geocode_failure_aborts_report :
    submit_official_report none none "Poblacion" "fire outbreak" "t3" "a" 1 "ana" "Fire"
      storeOne = storeOne ∧
    storeOne.reports = [] :=
  ⟨by decide, rfl⟩

/-- C8 amended: registration substitutes the configured town-center
fallback and still records the user when geocoding fails, and the SOS
alert operation records its alert whatever placeholder string the reverse
geocode produced; but the official-report operation aborts without
recording anything when no coordinate is stored and the geocode fails. -/
theorem geocode_fallback_spec (now addr : String) (inp : UserInput) (s : Store)
    (uid : Nat) (uname : String) (lat lon : ℚ) (note : String) (cat : Option String)
    (iaddr desc rname rcat : String) (rid : Nat) :
    (∃ u : User, (add_user none now inp s).users = s.users ++ [u] ∧
      u.latitude = CANTILAN_CENTER.1 ∧ u.longitude = CANTILAN_CENTER.2 ∧
      u.username = inp.username) ∧
    (∃ r : Sos, (log_sos now addr uid uname lat lon note cat s).sos_logs
        = s.sos_logs ++ [r] ∧ r.address = addr ∧ r.user_id = uid) ∧
    (desc ≠ "" → iaddr ≠ "" →
      submit_official_report none none iaddr desc now addr rid rname rcat s = s) := by
  refine ⟨⟨_, rfl, ?_, ?_, rfl⟩, ⟨_, rfl, rfl, rfl⟩, ?_⟩
  · by_cases h : inp.property_address = "" <;> simp [add_user, h]
  · by_cases h : inp.property_address = "" <;> simp [add_user, h]
  · intro hd hi
    simp [submit_official_report, hd, hi]

/-- Witness for the amended C8 at a concrete input: a nonempty report for a
nonempty address whose geocode failed leaves the empty store empty. -/
theorem geocode_fallback_spec_witness :
    submit_official_report none none "Brgy. Center" "collapsed bridge" "t" "a" 1 "gov"
      "Other" Store.empty = Store.empty :=
  (geocode_fallback_spec "t" "a" (inpCitizen "x") Store.empty 1 "x" 0 0 "" none
      "Brgy. Center" "collapsed bridge" "gov" "Other" 1).2.2
    (by decide) (by decide)

end CantilanERS
